import Mathlib

/-
Verification of the natural-language specification of the basic-shell
repository (src/shell.c, src/shell.h) against its code, via a shallow
embedding of the relevant functions into Lean.

Conventions:
- C machine integers that matter here (exit statuses, wait statuses, errno,
  file descriptors) stay in small nonnegative ranges in every modelled run;
  they are embedded as Nat, and descriptor sentinels (-1) as Int.
- Fallible operations (open, dup2, chdir) are driven by an explicit
  environment telling which calls succeed, and return Option results.
- The line buffer used by strtok and strcpy is embedded as a List Char for
  the claims about in-place token rewriting.
-/

namespace BasicShell

/-! ## Tokenizer (TokenizeCommandLine, src/shell.c lines 228-247)

strtok(cmdline, " ") splits the line on runs of spaces and never yields an
empty token; an all-space line yields no tokens at all. -/

def tokenizeChars : List Char → List Char → List String
  | [], acc => if acc.isEmpty then [] else [String.mk acc.reverse]
  | c :: cs, acc =>
    if c = ' ' then
      if acc.isEmpty then tokenizeChars cs []
      else String.mk acc.reverse :: tokenizeChars cs []
    else tokenizeChars cs (c :: acc)

def TokenizeCommandLine (cmdline : String) : List String :=
  tokenizeChars cmdline.toList []

/-- main, src/shell.c line 69: execution is skipped only when the line buffer
(after the newline has been stripped) is the empty string. -/
def mainSkipsLine (cmdline : String) : Bool :=
  cmdline = ""

/-! ## Wait-status decoding (main, src/shell.c lines 147-153)

The glibc wait macros on a status word s:
  WIFEXITED(s)   = ((s & 0x7f) == 0)
  WEXITSTATUS(s) = ((s >> 8) & 0xff)
  WIFSIGNALED(s) = (((signed char)(((s & 0x7f) + 1) >> 1)) > 0),
                   equivalently 1 <= (s & 0x7f) <= 126
  WTERMSIG(s)    = (s & 0x7f) -/

abbrev wifexited (s : Nat) : Prop := s % 128 = 0

def wexitstatus (s : Nat) : Nat := (s / 256) % 256

abbrev wifsignaled (s : Nat) : Prop := 1 ≤ s % 128 ∧ s % 128 ≤ 126

def wtermsig (s : Nat) : Nat := s % 128

/-- The status update of main, src/shell.c lines 147-153: normal exit keeps
the exit code, signal termination yields 128 plus the signal number, anything
else keeps the raw wait status. -/
def decodeWaitStatus (s : Nat) : Nat :=
  if wifexited s then wexitstatus s
  else if wifsignaled s then 128 + wtermsig s
  else s

/-! ## The fgets failure branch (main, src/shell.c lines 57-64)

The C source reads:
  if (!fgets(cmdline, kInputMax, stdin)) {
    if (errno = EINTR) { clearerr(stdin); continue; }
    PrintError(...); continue;
  }
The condition is an assignment: it stores EINTR into errno and the value of
the expression is EINTR itself, which is nonzero, so the retry branch is
taken on every fgets failure whatever its cause. There is no branch at all
that leaves the loop on end-of-input. -/

def EINTR : Nat := 4

inductive ReadAction
  | retry
  | reportAndContinue
  | terminate
deriving DecidableEq

/-- Embeds the fgets-failure dispatch of main (src/shell.c lines 57-64).
The first component is the action taken, the second the value of errno after
the branch condition has been evaluated. -/
def handleReadFailure (errnoBefore : Nat) : ReadAction × Nat :=
  let errnoAfter := EINTR
  if errnoAfter ≠ 0 then (ReadAction.retry, errnoAfter)
  else (ReadAction.reportAndContinue, errnoAfter)

/-! ## The waitpid branch (main, src/shell.c lines 140-153)

A negative waitpid return takes the report-and-continue branch with no
inspection of errno (there is no retry on EINTR); a successful wait decodes
the status word. -/

inductive WaitAction
  | updateStatus (s : Nat)
  | reportContinue
  | retryWait
deriving DecidableEq

/-- Embeds the parent branch of main, src/shell.c lines 140-153; the argument
is the waitpid outcome, an errno value on failure or the status word on
success. -/
def handleWaitResult : Except Nat Nat → WaitAction
  | Except.error _ => WaitAction.reportContinue
  | Except.ok w => WaitAction.updateStatus (decodeWaitStatus w)

/-- The shell status after the wait branch of main: a failed wait leaves the
previous status in place. -/
def afterWait (res : Except Nat Nat) (status : Nat) : Nat :=
  match handleWaitResult res with
  | WaitAction.updateStatus s => s
  | _ => status

/-! ## The cd builtin (main, src/shell.c lines 80-95)

On a missing operand or a failed chdir the status is set to 1; on success
the code jumps to next_command and the status is left untouched. The chdir
system call is passed in as a function from current directory and path to
the resulting directory (none on failure); per POSIX, chdir(".") succeeds
and leaves the working directory unchanged, which is the only path behaviour
the claims need. -/

def chdirModel (cwd path : String) : Option String :=
  if path = "." then some cwd else none

def runCdBuiltin (chdir : String → String → Option String)
    (cwd : String) (status : Nat) (args : List String) : String × Nat :=
  if args.length < 2 then (cwd, 1)
  else
    match chdir cwd ((args.drop 1).headD "") with
    | none => (cwd, 1)
    | some cwd2 => (cwd2, status)

/-! ## The line buffer and ReplaceExitStatusVariable (src/shell.c 596-607)

The tokens handed to ReplaceExitStatusVariable are pointers into the single
line buffer, where strtok has overwritten each token-terminating space with
a NUL byte.  strcpy(args[i], status_str) copies the decimal digits of the
status and a terminating NUL starting at the token's offset, regardless of
how much room the token occupies. -/

def nulChar : Char := Char.ofNat 0

def writeChars : List Char → Nat → List Char → List Char
  | buf, _, [] => buf
  | buf, i, c :: cs => writeChars (buf.set i c) (i + 1) cs

/-- strcpy of a string (digits plus terminating NUL) into the buffer at the
given offset. -/
def strcpyAt (buf : List Char) (off : Nat) (s : String) : List Char :=
  writeChars buf off (s.toList ++ [nulChar])

/-- Reading the NUL-terminated C string that starts at the given offset. -/
def readCStr (buf : List Char) (off : Nat) : List Char :=
  (buf.drop off).takeWhile (fun c => c ≠ nulChar)

/-- Embeds ReplaceExitStatusVariable (src/shell.c lines 596-607) at the level
of the underlying line buffer: args are the offsets of the tokens inside the
buffer; every token reading exactly the two characters of the reserved
sequence is overwritten in place by strcpy with the decimal status string. -/
def replaceStatusBuf (buf : List Char) (offs : List Nat) (status : Nat) : List Char :=
  offs.foldl
    (fun b off =>
      if readCStr b off = ['$', '?'] then strcpyAt b off (toString status) else b)
    buf

/-- The line buffer of the input line consisting of the three tokens
echo, the reserved status sequence, and x, as strtok leaves it: each
delimiting space has been overwritten with NUL. -/
def echoBuf : List Char :=
  ['e', 'c', 'h', 'o', nulChar, '$', '?', nulChar, 'x', nulChar]

/-! ## Redirection operators (GetRedirectType, src/shell.c lines 508-526) -/

inductive RedirectType
  | kRedirectIn
  | kRedirectOut
  | kRedirectErr
  | kRedirectOutErr
  | kRedirectAppend
  | kNone
deriving DecidableEq

def GetRedirectType (op : String) : RedirectType :=
  if op = "<" then RedirectType.kRedirectIn
  else if op = ">" then RedirectType.kRedirectOut
  else if op = "1>" then RedirectType.kRedirectOut
  else if op = ">>" then RedirectType.kRedirectAppend
  else if op = "2>" then RedirectType.kRedirectErr
  else if op = "&>" then RedirectType.kRedirectOutErr
  else RedirectType.kNone

/-! ## File-descriptor model

The child's descriptor table maps each open descriptor number to the file
(or terminal stream) it designates.  open(2) allocates the lowest unused
descriptor; dup2(oldfd, newfd) closes newfd, makes it designate oldfd's
file, and returns newfd.  Which open and dup2 calls succeed is decided by
an explicit environment (dup2 calls are numbered in call order). -/

abbrev FdTable := List (Nat × String)

def fdLookup (fds : FdTable) (n : Nat) : Option String :=
  match fds.find? (fun p => p.1 == n) with
  | some p => some p.2
  | none => none

def fdClose (fds : FdTable) (n : Nat) : FdTable :=
  fds.filter (fun p => p.1 != n)

def lowestFreeFrom (keys : List Nat) : Nat → Nat → Nat
  | 0, n => n
  | fuel + 1, n => if n ∈ keys then lowestFreeFrom keys fuel (n + 1) else n

def lowestFree (fds : FdTable) : Nat :=
  lowestFreeFrom (fds.map Prod.fst) (fds.length + 1) 0

/-- The descriptor bookkeeping of the Process structure (src/shell.h lines
27-32): the three active redirection slots and the three saved originals,
with -1 as the not-in-use sentinel, exactly as in the C code. -/
structure ProcSt where
  in_fd : Int
  out_fd : Int
  err_fd : Int
  orig_stdin : Int
  orig_stdout : Int
  orig_stderr : Int

/-- The whole modelled child state: descriptor table, Process bookkeeping,
the list of files created (and truncated) by open with O_CREAT so far, and
the number of dup2 calls made so far. -/
structure ChildSt where
  fds : FdTable
  proc : ProcSt
  created : List String
  dupCount : Nat

/-- The environment of fallible system calls: which paths open successfully,
which dup2 calls (numbered in call order) succeed, and the wait status each
external command would produce if exec is reached. -/
structure Env where
  openOk : String → Bool
  dup2Ok : Nat → Bool
  execWStatus : String → Nat

def envAll : Env :=
  { openOk := fun _ => true, dup2Ok := fun _ => true, execWStatus := fun _ => 0 }

def envOpenFail : Env :=
  { openOk := fun p => p != "nofile", dup2Ok := fun _ => true,
    execWStatus := fun _ => 0 }

def envDupFail : Env :=
  { openOk := fun _ => true, dup2Ok := fun k => k != 1,
    execWStatus := fun _ => 0 }

/-- dup2(oldfd, newfd): on success newfd designates oldfd's file and newfd is
returned; on failure the table is unchanged and none is returned.  Every call
consumes one index of the environment's dup2 success schedule. -/
def dup2Model (env : Env) (st : ChildSt) (oldfd newfd : Nat) : ChildSt × Option Nat :=
  let ok := env.dup2Ok st.dupCount
  let st1 := { st with dupCount := st.dupCount + 1 }
  if ok then
    match fdLookup st1.fds oldfd with
    | some path =>
        ({ st1 with fds := (newfd, path) :: fdClose st1.fds newfd }, some newfd)
    | none => (st1, none)
  else (st1, none)

/-- open(2) for a redirection target (ParseCommand, src/shell.c lines
287-346): allocates the lowest free descriptor; every operator except input
redirection opens with O_CREAT (and all the creating ones except append
truncate), so the target is recorded as created. -/
def openForRedirect (env : Env) (st : ChildSt) (path : String) (rtype : RedirectType) :
    ChildSt × Option Nat :=
  if env.openOk path then
    let n := lowestFree st.fds
    let created :=
      match rtype with
      | RedirectType.kRedirectIn => st.created
      | _ => st.created ++ [path]
    ({ st with fds := (n, path) :: st.fds, created := created }, some n)
  else (st, none)

/-- The close-active-then-restore-originals sweep of CleanupRedirection
(src/shell.c lines 544-556): each active redirection slot at or above zero is
closed and reset to -1. -/
def clearActive (st : ChildSt) : ChildSt :=
  let st1 :=
    if st.proc.in_fd ≥ 0 then
      { st with fds := fdClose st.fds st.proc.in_fd.toNat,
                proc := { st.proc with in_fd := -1 } }
    else st
  let st2 :=
    if st1.proc.out_fd ≥ 0 then
      { st1 with fds := fdClose st1.fds st1.proc.out_fd.toNat,
                 proc := { st1.proc with out_fd := -1 } }
    else st1
  let st3 :=
    if st2.proc.err_fd ≥ 0 then
      { st2 with fds := fdClose st2.fds st2.proc.err_fd.toNat,
                 proc := { st2.proc with err_fd := -1 } }
    else st2
  st3

/-- Restoration of the saved stderr (CleanupRedirection, src/shell.c lines
575-581): duplicate the snapshot back onto descriptor 2 and close it; a
failed duplication returns immediately with failure. -/
def restoreErr (env : Env) (st : ChildSt) : ChildSt × Bool :=
  if st.proc.orig_stderr ≥ 0 then
    match dup2Model env st st.proc.orig_stderr.toNat 2 with
    | (st1, none) => (st1, false)
    | (st1, some _) =>
        ({ st1 with fds := fdClose st1.fds st1.proc.orig_stderr.toNat,
                    proc := { st1.proc with orig_stderr := -1 } }, true)
  else (st, true)

/-- Restoration of the saved stdout (CleanupRedirection, src/shell.c lines
567-573), then of stderr. -/
def restoreOut (env : Env) (st : ChildSt) : ChildSt × Bool :=
  if st.proc.orig_stdout ≥ 0 then
    match dup2Model env st st.proc.orig_stdout.toNat 1 with
    | (st1, none) => (st1, false)
    | (st1, some _) =>
        restoreErr env
          { st1 with fds := fdClose st1.fds st1.proc.orig_stdout.toNat,
                     proc := { st1.proc with orig_stdout := -1 } }
  else restoreErr env st

/-- Restoration of the saved stdin (CleanupRedirection, src/shell.c lines
559-565), then of stdout and stderr. -/
def restoreIn (env : Env) (st : ChildSt) : ChildSt × Bool :=
  if st.proc.orig_stdin ≥ 0 then
    match dup2Model env st st.proc.orig_stdin.toNat 0 with
    | (st1, none) => (st1, false)
    | (st1, some _) =>
        restoreOut env
          { st1 with fds := fdClose st1.fds st1.proc.orig_stdin.toNat,
                     proc := { st1.proc with orig_stdin := -1 } }
  else restoreOut env st

/-- CleanupRedirection (src/shell.c lines 539-584): close the redirected
streams, then restore the original standard streams from their snapshots.
Note the C code returns -1 as soon as one restoring dup2 fails, skipping the
remaining slots; the model does the same. -/
def CleanupRedirection (env : Env) (st : ChildSt) : ChildSt × Bool :=
  restoreIn env (clearActive st)

/-- One redirection slot assignment inside SetupRedirection: if the slot
already holds an active descriptor it is closed first, then the fresh
descriptor is duplicated onto the canonical stream descriptor and the slot
records the dup2 return value.  On dup2 failure the slot holds -1 (the C
code assigns the failed return before the goto) and CleanupRedirection runs. -/
def setupSlot (env : Env) (st : ChildSt) (newfd : Nat) (slotFd : Int) (target : Nat)
    (write : ChildSt → Int → ChildSt) : ChildSt × Bool :=
  let st1 := if slotFd ≥ 0 then { st with fds := fdClose st.fds slotFd.toNat } else st
  match dup2Model env st1 newfd target with
  | (st2, some fd) => (write st2 (Int.ofNat fd), true)
  | (st2, none) => ((CleanupRedirection env (write st2 (-1))).1, false)

/-- SetupRedirection (src/shell.c lines 434-495). -/
def SetupRedirection (env : Env) (st : ChildSt) (newfd : Nat) (rtype : RedirectType) :
    ChildSt × Bool :=
  match rtype with
  | RedirectType.kRedirectIn =>
      setupSlot env st newfd st.proc.in_fd 0
        (fun s v => { s with proc := { s.proc with in_fd := v } })
  | RedirectType.kRedirectOut =>
      setupSlot env st newfd st.proc.out_fd 1
        (fun s v => { s with proc := { s.proc with out_fd := v } })
  | RedirectType.kRedirectAppend =>
      setupSlot env st newfd st.proc.out_fd 1
        (fun s v => { s with proc := { s.proc with out_fd := v } })
  | RedirectType.kRedirectErr =>
      setupSlot env st newfd st.proc.err_fd 2
        (fun s v => { s with proc := { s.proc with err_fd := v } })
  | RedirectType.kRedirectOutErr =>
      match setupSlot env st newfd st.proc.out_fd 1
          (fun s v => { s with proc := { s.proc with out_fd := v } }) with
      | (st1, false) => (st1, false)
      | (st1, true) =>
          setupSlot env st1 newfd st1.proc.err_fd 2
            (fun s v => { s with proc := { s.proc with err_fd := v } })
  | RedirectType.kNone => (st, true)

/-! ## ParseCommand (src/shell.c lines 266-373) -/

inductive ScanErr
  | missingTarget
  | openFail (path : String)
  | dupFail (op : String)
deriving DecidableEq

/-- The redirection scan of ParseCommand (src/shell.c lines 274-362): walk the
tokens left to right; a non-operator token is kept; an operator token must be
followed by a target path (else the missing-target parse error), whose open
and SetupRedirection either succeed (the operator and target are removed and
the scan continues with the following tokens) or abort the command.  After a
successful SetupRedirection, and also after a failed one, the freshly opened
descriptor is closed. -/
def scanTokens (env : Env) : List String → List String → ChildSt →
    ChildSt × Except ScanErr (List String)
  | [], kept, st => (st, Except.ok kept.reverse)
  | t :: rest, kept, st =>
    match GetRedirectType t with
    | RedirectType.kNone => scanTokens env rest (t :: kept) st
    | rtype =>
      match rest with
      | [] => (st, Except.error ScanErr.missingTarget)
      | path :: rest2 =>
        match openForRedirect env st path rtype with
        | (st1, none) => (st1, Except.error (ScanErr.openFail path))
        | (st1, some newfd) =>
          match SetupRedirection env st1 newfd rtype with
          | (st2, true) =>
              scanTokens env rest2 kept { st2 with fds := fdClose st2.fds newfd }
          | (st2, false) =>
              ({ st2 with fds := fdClose st2.fds newfd },
               Except.error (ScanErr.dupFail t))

/-- ReplaceExitStatusVariable (src/shell.c lines 596-607) at the token level:
every token exactly equal to the reserved sequence becomes the decimal string
of the status.  (This token-level view is exact only while the decimal string
fits in the token's storage; the buffer-level model replaceStatusBuf above
captures the in-place strcpy faithfully.) -/
def ReplaceExitStatusVariable (tokens : List String) (status : Nat) : List String :=
  tokens.map (fun t => if t = "$?" then toString status else t)

/-- ParseCommand (src/shell.c lines 266-373): empty token array means a no-op
command; otherwise the redirection scan runs first, then the command name is
the first remaining token, and only when that name is echo is the exit-status
substitution applied.  (When the scan consumes every token the C code reads
a NULL command pointer; no modelled run reaches that case and the model
returns the empty name there.) -/
def ParseCommand (env : Env) (tokens : List String) (status : Nat) (st : ChildSt) :
    ChildSt × Except ScanErr (String × List String) :=
  match tokens with
  | [] => (st, Except.ok ("", []))
  | _ :: _ =>
    match scanTokens env tokens [] st with
    | (st1, Except.error e) => (st1, Except.error e)
    | (st1, Except.ok kept) =>
      let cmd := kept.headD ""
      let kept2 := if cmd = "echo" then ReplaceExitStatusVariable kept status else kept
      (st1, Except.ok (cmd, kept2))

/-! ## The external-command path of main (src/shell.c lines 101-158) -/

/-- The state InitProcess (src/shell.c lines 385-418) builds in the child:
descriptors 0, 1, 2 designate the terminal streams, dup has snapshotted them
onto the lowest free descriptors 3, 4, 5, no redirection slot is active. -/
def InitProcessSt : ChildSt :=
  { fds := [(5, "tty-err"), (4, "tty-out"), (3, "tty-in"),
            (0, "tty-in"), (1, "tty-out"), (2, "tty-err")]
    proc := { in_fd := -1, out_fd := -1, err_fd := -1,
              orig_stdin := 3, orig_stdout := 4, orig_stderr := 5 }
    created := []
    dupCount := 0 }

inductive Event
  | eFork
  | eError (msg : String)
  | eExec (cmd : String)
deriving DecidableEq

def scanErrMsg : ScanErr → String
  | ScanErr.missingTarget => "missing redirection target"
  | ScanErr.openFail p => "failed open: " ++ p
  | ScanErr.dupFail op => "failed redirection: " ++ op

/-- The external-command path of main (src/shell.c lines 101-158): fork
first; the child runs InitProcess and ParseCommand, and on a parse failure
calls exit(EXIT_FAILURE), producing the wait status 1 * 256 that the parent
decodes; on success the child reaches execvp and the parent decodes the wait
status of the executed command. -/
def runExternal (env : Env) (tokens : List String) (status : Nat) : List Event × Nat :=
  match ParseCommand env tokens status InitProcessSt with
  | (_, Except.error e) =>
      ([Event.eFork, Event.eError (scanErrMsg e)], decodeWaitStatus 256)
  | (_, Except.ok (cmd, _)) =>
      ([Event.eFork, Event.eExec cmd], decodeWaitStatus (env.execWStatus cmd))

/-- The run of ParseCommand on a command line carrying two output
redirections, the second shadowing the first. -/
def redirTwice (a b : String) : ChildSt × Except ScanErr (String × List String) :=
  ParseCommand envAll ["cmd", ">", a, ">", b] 0 InitProcessSt

/-- The run of ParseCommand in which the second redirection target fails to
open after the first redirection has already been applied. -/
def c3OpenRun : ChildSt × Except ScanErr (String × List String) :=
  ParseCommand envOpenFail ["cmd", ">", "out.txt", "<", "nofile"] 0 InitProcessSt

/-- The run of ParseCommand in which the second redirection's dup2 fails
after the first redirection has already been applied. -/
def c3DupRun : ChildSt × Except ScanErr (String × List String) :=
  ParseCommand envDupFail ["cmd", ">", "a", "<", "f"] 0 InitProcessSt

/-! ## Theorems -/

/-- Helper: the decoded wait status of a child that called exit(EXIT_FAILURE),
whose wait status word is 1 shifted left by eight bits. -/
theorem decodeWaitStatus_256 : decodeWaitStatus 256 = 1 := by decide

/-- Helper for claim C1: when every token before the final one is a
non-operator and the final token is a redirection operator, the scan of
ParseCommand reaches the final token with nothing following it and reports
the missing-target parse error, leaving the state untouched. -/
theorem scanTokens_trailing_op (env : Env) (op : String)
    (hop : GetRedirectType op ≠ RedirectType.kNone) :
    ∀ (ts : List String) (kept : List String) (st : ChildSt),
      (∀ t ∈ ts, GetRedirectType t = RedirectType.kNone) →
      scanTokens env (ts ++ [op]) kept st = (st, Except.error ScanErr.missingTarget) := by
  intro ts
  induction ts with
  | nil =>
    intro kept st _
    cases h : GetRedirectType op with
    | kNone => exact absurd h hop
    | kRedirectIn => simp [scanTokens, h]
    | kRedirectOut => simp [scanTokens, h]
    | kRedirectErr => simp [scanTokens, h]
    | kRedirectOutErr => simp [scanTokens, h]
    | kRedirectAppend => simp [scanTokens, h]
  | cons t ts ih =>
    intro kept st hts
    have ht : GetRedirectType t = RedirectType.kNone := hts t (List.mem_cons_self t _)
    have hrest : ∀ x ∈ ts, GetRedirectType x = RedirectType.kNone :=
      fun x hx => hts x (List.mem_cons_of_mem t hx)
    rw [List.cons_append]
    rw [show scanTokens env (t :: (ts ++ [op])) kept st
          = scanTokens env (ts ++ [op]) (t :: kept) st by simp [scanTokens, ht]]
    exact ih (t :: kept) st hrest

/-- Claim C1, counterexample: on the command line with tokens ls and a
trailing output operator, the run's first event is the fork — a child process
is spawned before the missing-redirection-target rejection is raised — so the
claim's "rejected ... before any process is spawned" is false on the code,
whose fork precedes ParseCommand (src/shell.c line 101 versus line 121). -/
theorem C1_counterexample :
    runExternal envAll ["ls", ">"] 0
      = ([Event.eFork, Event.eError "missing redirection target"], 1) ∧
    (runExternal envAll ["ls", ">"] 0).1.head? = some Event.eFork :=
  ⟨rfl, rfl⟩

/-- Claim C1 (amended): for every token sequence of non-operator tokens
followed by a trailing redirection operator, the command line is rejected
with the missing-redirection-target parse error before the command image is
executed — the already-forked child exits without reaching exec — and the
exit status becomes the failure value 1. -/
theorem C1_missing_target_rejection (ts : List String) (op : String)
    (hts : ∀ t ∈ ts, GetRedirectType t = RedirectType.kNone)
    (hop : GetRedirectType op ≠ RedirectType.kNone) :
    runExternal envAll (ts ++ [op]) 0
      = ([Event.eFork, Event.eError "missing redirection target"], 1) := by
  have hscan := scanTokens_trailing_op envAll op hop ts [] InitProcessSt hts
  have hpc : ParseCommand envAll (ts ++ [op]) 0 InitProcessSt
      = (InitProcessSt, Except.error ScanErr.missingTarget) := by
    cases ts with
    | nil =>
      rw [List.nil_append] at hscan ⊢
      simp [ParseCommand, hscan]
    | cons t ts2 =>
      rw [List.cons_append] at hscan ⊢
      simp [ParseCommand, hscan]
  simp [runExternal, hpc, scanErrMsg, decodeWaitStatus_256]

/-- Witness for claim C1's amended theorem at the concrete command line
ls followed by a bare output operator. -/
theorem C1_missing_target_rejection_witness :
    (∀ t ∈ ["ls"], GetRedirectType t = RedirectType.kNone) ∧
    GetRedirectType ">" ≠ RedirectType.kNone ∧
    runExternal envAll (["ls"] ++ [">"]) 0
      = ([Event.eFork, Event.eError "missing redirection target"], 1) :=
  ⟨by decide, by decide, C1_missing_target_rejection ["ls"] ">" (by decide) (by decide)⟩

/-- Claim C2: in the fgets-failure branch of main the condition is the
assignment of EINTR into errno, which is nonzero, so every read failure —
end-of-input included — takes the retry branch; no failure is ever reported
and no path terminates the interpreter at end-of-input.  This contradicts
the claim that the three outcomes are distinguished; the claim matches the
evident intent (comparing errno with EINTR) and the code is the slip. -/
theorem C2_read_failure_always_retries (errnoBefore : Nat) :
    handleReadFailure errnoBefore = (ReadAction.retry, EINTR) := rfl

/-- Claim C3, counterexample: in the run in which the output redirection to
out.txt has been applied and the following input redirection's open fails,
the error is reported while descriptor 1 still designates out.txt and the
output slot is still active — the already-applied redirection is not unwound
and the original standard output is not restored. -/
theorem C3_counterexample :
    c3OpenRun.2 = Except.error (ScanErr.openFail "nofile") ∧
    c3OpenRun.1.proc.out_fd = 1 ∧
    fdLookup c3OpenRun.1.fds 1 = some "out.txt" :=
  ⟨rfl, rfl, rfl⟩

/-- Claim C3 (amended): a descriptor-duplication failure mid-scan unwinds
every redirection already applied and restores the original standard streams
before the error is reported — after the dup2-failure run the three slots are
inactive, descriptors 0, 1, 2 designate the original terminal streams again
and no other descriptor is left open; a file-open failure mid-scan, however,
aborts the command with an error while leaving the already-applied
redirections in place (they disappear only with the failing child itself). -/
theorem C3_failure_unwinding :
    (c3DupRun.2 = Except.error (ScanErr.dupFail "<") ∧
     c3DupRun.1.proc.in_fd = -1 ∧ c3DupRun.1.proc.out_fd = -1 ∧
     c3DupRun.1.proc.err_fd = -1 ∧
     fdLookup c3DupRun.1.fds 0 = some "tty-in" ∧
     fdLookup c3DupRun.1.fds 1 = some "tty-out" ∧
     fdLookup c3DupRun.1.fds 2 = some "tty-err" ∧
     c3DupRun.1.fds.length = 3) ∧
    (c3OpenRun.2 = Except.error (ScanErr.openFail "nofile") ∧
     fdLookup c3OpenRun.1.fds 1 = some "out.txt" ∧
     c3OpenRun.1.proc.out_fd = 1) :=
  ⟨⟨rfl, rfl, rfl, rfl, rfl, rfl, rfl, rfl⟩, ⟨rfl, rfl, rfl⟩⟩

/-- Claim C4: a line of three spaces tokenizes to the empty sequence, yet
main's skip test (which compares the first byte with NUL) does not skip it,
so the code goes on to read the first element of an empty token array —
uninitialized memory in the C program — instead of executing no command and
leaving the status unchanged.  The claim states the evident intent of the
skip test and the tokenizer's contract; the missing empty-sequence check in
main is the slip. -/
theorem C4_whitespace_line_not_skipped :
    TokenizeCommandLine "   " = [] ∧
    mainSkipsLine "   " = false ∧
    (TokenizeCommandLine "   ").head? = none := by decide

/-- Claim C5: the wait-status decoding of main follows the claimed rule —
a child exiting normally with code c (status word 256 * c) decodes to c, a
child terminated by signal n decodes to 128 + n, any other status word is
kept raw, and in particular a child killed by signal 9 decodes to 137. -/
theorem C5_wait_status_decoding :
    (∀ c : Nat, c ≤ 255 → decodeWaitStatus (256 * c) = c) ∧
    (∀ n : Nat, 1 ≤ n → n ≤ 126 → decodeWaitStatus n = 128 + n) ∧
    (∀ s : Nat, ¬ wifexited s → ¬ wifsignaled s → decodeWaitStatus s = s) ∧
    decodeWaitStatus 9 = 137 := by
  refine ⟨?_, ?_, ?_, by decide⟩
  · intro c hc
    have h1 : (256 * c) % 128 = 0 := by omega
    unfold decodeWaitStatus
    rw [if_pos h1]
    unfold wexitstatus
    omega
  · intro n h1 h2
    have hne : ¬ ((n : Nat) % 128 = 0) := by omega
    have hs : wifsignaled n := by constructor <;> omega
    unfold decodeWaitStatus
    rw [if_neg hne, if_pos hs]
    unfold wtermsig
    omega
  · intro s h1 h2
    unfold decodeWaitStatus
    rw [if_neg h1, if_neg h2]

/-- Witness for claim C5 at exit code 7, termination by signal 9, and the
unclassified status word 127. -/
theorem C5_wait_status_decoding_witness :
    (7 ≤ 255 ∧ decodeWaitStatus (256 * 7) = 7) ∧
    (1 ≤ 9 ∧ 9 ≤ 126 ∧ decodeWaitStatus 9 = 137) ∧
    (¬ wifexited 127 ∧ ¬ wifsignaled 127 ∧ decodeWaitStatus 127 = 127) :=
  ⟨⟨by decide, C5_wait_status_decoding.1 7 (by decide)⟩,
   ⟨by decide, by decide, C5_wait_status_decoding.2.1 9 (by decide) (by decide)⟩,
   ⟨by decide, by decide, C5_wait_status_decoding.2.2.1 127 (by decide) (by decide)⟩⟩

/-- Claim C6, counterexample: with previous status 1, the reserved token in
the non-echo command line cat followed by the reserved sequence is not
replaced (the claim requires every such token to be replaced); moreover the
substitution runs only after redirection stripping, as the second run shows:
in echo followed by an output operator targeting the reserved sequence, the
token is consumed as a redirection target (a file of that name is created)
rather than being substituted first. -/
theorem C6_counterexample :
    (ParseCommand envAll ["cat", "$?"] 1 InitProcessSt).2
      = Except.ok ("cat", ["cat", "$?"]) ∧
    (ParseCommand envAll ["echo", ">", "$?"] 5 InitProcessSt).2
      = Except.ok ("echo", ["echo"]) ∧
    "$?" ∈ (ParseCommand envAll ["echo", ">", "$?"] 5 InitProcessSt).1.created := by
  refine ⟨rfl, rfl, ?_⟩
  show "$?" ∈ ["$?"]
  simp

/-- Claim C6 (amended): after redirection stripping, and only when the
resolved command is echo, every token exactly equal to the reserved sequence
is replaced in place with the decimal string form of the previous command's
exit status; in particular, after a command exiting with code 1, the
token substitutes to the literal string 1. -/
theorem C6_echo_substitution (status : Nat) :
    (ParseCommand envAll ["echo", "$?"] status InitProcessSt).2
      = Except.ok ("echo", ["echo", toString status]) ∧
    (ParseCommand envAll ["echo", "$?"] 1 InitProcessSt).2
      = Except.ok ("echo", ["echo", "1"]) :=
  ⟨rfl, rfl⟩

/-- Claim C7: when two output redirections in one command line target the
output slot, the prior active descriptor is closed before the later target is
substituted, so the later operator wins: after the scan of the line with
targets a then b, descriptor 1 designates b, a was created (and truncated to
empty), and no open descriptor designates a, so only b can receive the
command's output. -/
theorem C7_last_redirection_wins (a b : String)
    (hab : a ≠ b) (hi : a ≠ "tty-in") (ho : a ≠ "tty-out") (he : a ≠ "tty-err") :
    (redirTwice a b).2 = Except.ok ("cmd", ["cmd"]) ∧
    fdLookup (redirTwice a b).1.fds 1 = some b ∧
    a ∈ (redirTwice a b).1.created ∧
    ∀ n : Nat, (n, a) ∉ (redirTwice a b).1.fds := by
  refine ⟨rfl, rfl, ?_, ?_⟩
  · show a ∈ [a, b]
    exact List.mem_cons_self a [b]
  · intro n hmem
    have hfds : (redirTwice a b).1.fds
        = [(1, b), (5, "tty-err"), (4, "tty-out"), (3, "tty-in"),
           (0, "tty-in"), (2, "tty-err")] := rfl
    rw [hfds] at hmem
    simp only [List.mem_cons, List.not_mem_nil, or_false, Prod.mk.injEq] at hmem
    rcases hmem with ⟨-, h⟩ | ⟨-, h⟩ | ⟨-, h⟩ | ⟨-, h⟩ | ⟨-, h⟩ | ⟨-, h⟩
    · exact hab h
    · exact he h
    · exact ho h
    · exact hi h
    · exact hi h
    · exact he h

/-- Witness for claim C7 at the concrete targets a.txt and b.txt. -/
theorem C7_last_redirection_wins_witness :
    ("a.txt" : String) ≠ "b.txt" ∧
    fdLookup (redirTwice "a.txt" "b.txt").1.fds 1 = some "b.txt" ∧
    "a.txt" ∈ (redirTwice "a.txt" "b.txt").1.created := by
  have h := C7_last_redirection_wins "a.txt" "b.txt" (by decide) (by decide)
    (by decide) (by decide)
  exact ⟨by decide, h.2.1, h.2.2.1⟩

/-- Claim C8, counterexample: a wait that fails with EINTR — interruption by
a caught signal — takes the report-and-continue branch, not a retry, because
the waitpid branch of main never inspects errno. -/
theorem C8_counterexample :
    handleWaitResult (Except.error EINTR) = WaitAction.reportContinue ∧
    WaitAction.reportContinue ≠ WaitAction.retryWait :=
  ⟨rfl, by decide⟩

/-- Claim C8 (amended): every wait failure, interruption by a caught signal
included, is reported and leaves the exit status unchanged; an interrupted
wait is not retried. -/
theorem C8_wait_failure_policy (e status : Nat) :
    handleWaitResult (Except.error e) = WaitAction.reportContinue ∧
    afterWait (Except.error e) status = status :=
  ⟨rfl, rfl⟩

/-- Claim C9, counterexample: with previous exit status 1, running the
builtin cd with argument dot leaves the status at 1, not 0 — the successful
cd branch of main jumps past the status update without writing it. -/
theorem C9_counterexample :
    runCdBuiltin chdirModel "/home" 1 ["cd", "."] = ("/home", 1) ∧ (1 : Nat) ≠ 0 :=
  ⟨rfl, by decide⟩

/-- Claim C9 (amended): running the builtin cd with argument dot is
idempotent — it leaves both the interpreter's working directory and the exit
status unchanged (a successful cd does not reset the status to 0). -/
theorem C9_cd_dot_preserves_state (cwd : String) (status : Nat) :
    runCdBuiltin chdirModel cwd status ["cd", "."] = (cwd, status) := rfl

/-- Claim C10: in the buffer of the line holding the tokens echo, the
reserved status sequence and x, substituting the three-digit status 137
writes the terminating NUL one byte past the two-character token's storage,
onto the first byte of the adjacent token, which afterwards reads as the
empty string instead of x; a two-digit status such as 99 stays within the
token's storage and leaves the neighbour intact.  The claim (writes confined
to the token for every status up to 255) states the evident intent; the
unchecked strcpy in ReplaceExitStatusVariable is the slip. -/
theorem C10_substitution_overflow :
    readCStr echoBuf 8 = ['x'] ∧
    readCStr (replaceStatusBuf echoBuf [0, 5, 8] 137) 5 = ['1', '3', '7'] ∧
    readCStr (replaceStatusBuf echoBuf [0, 5, 8] 137) 8 = [] ∧
    readCStr (replaceStatusBuf echoBuf [0, 5, 8] 99) 8 = ['x'] :=
  ⟨rfl, rfl, rfl, rfl⟩

end BasicShell
